import Mathlib

/-!
Shallow embedding of the role/permission resolution and meter-reading
delta/validation core of the Ecoloimp_mvc repository.

Embedded source files:
* `app/models/models.py` — `Usuario.ROLES`, `Usuario.has_role`,
  `Usuario.tiene_permiso`, `Usuario.tiene_permisos`,
  `Conteo.validar_contadores`, `Conteo.validar_estado_equipo`,
  `Conteo.calcular_diferencias`, `Conteo.MAX_CONTADOR`,
  `Conteo.MAX_DIFERENCIA_DIARIA`.
* `app/decorators/role_required.py` — `role_required`.
* `app/conteo_impresiones/routes.py` — `nuevo_conteo`.
* `app/conteo_impresiones/forms.py` — the field names of `ConteoImpresionForm`.

Stateful route code is embedded as an explicit state-passing function on a
`DBState`; SQLAlchemy `@validates` hooks become `Except`-returning
validators applied in constructor-keyword order; fallible paths return
`Except`, and the surrounding `try/except: rollback` of the route is the
function `runNuevoConteo` that maps an error back to the unchanged state.
Python attribute access on the submitted form is embedded by an explicit
lookup over the form's defined counter fields, so that the route's reads
of `form.contador_impresiones` / `form.contador_escaneos` /
`form.contador_copias` — names `ConteoImpresionForm` does not define —
fail with an `AttributeError`, exactly as every POST does in the source.
-/

namespace Ecoloimp

/-- Level of a role in `Usuario.ROLES`; `none` when the role name is not a
key of the dict (`superadmin`:3, `admin`:2, `tecnico`:1, `usuario`:0). -/
def rolesLevel? (r : String) : Option Int :=
  if r = "superadmin" then some 3
  else if r = "admin" then some 2
  else if r = "tecnico" then some 1
  else if r = "usuario" then some 0
  else none

/-- Embeds `self.ROLES.get(self.rol, {}).get('level', 0)`: the level of the
user's own role, defaulting to 0 for unregistered roles. -/
def userLevel (rol : String) : Int :=
  (rolesLevel? rol).getD 0

/-- Embeds `self.ROLES.get(role, {}).get('level', -1)`: the level of a
requested role, defaulting to -1 for unregistered roles. -/
def reqLevel (r : String) : Int :=
  (rolesLevel? r).getD (-1)

/-- A user as seen by the permission code: its `rol` string and the names of
the permissions granted to it directly through `permisos_usuario`
(`UsuarioPermiso` rows, projected to `p.permiso.nombre`). -/
structure Usuario where
  rol : String
  permisosUsuario : List String
deriving Repr, DecidableEq

/-- Embeds `Usuario.is_superadmin` — `self.rol == 'superadmin'`. -/
def Usuario.esSuperadmin (u : Usuario) : Bool :=
  u.rol == "superadmin"

/-- Embeds `Usuario.has_role(*roles)` (alias `tiene_rol`): true when
`user_level >= role_level` for at least one requested role. -/
def Usuario.hasRole (u : Usuario) (roles : List String) : Bool :=
  roles.any (fun r => reqLevel r ≤ userLevel u.rol)

/-- The `RolPermiso` table, as the list of its (rol, permiso-name) rows. -/
def RolPermisoDB := List (String × String)

/-- Embeds `Usuario.tiene_permiso(permiso_nombre)`: superadmin shortcut,
then the direct `permisos_usuario` grants, then a `RolPermiso` lookup for
the user's role. -/
def tienePermiso (rp : List (String × String)) (u : Usuario) (nombre : String) : Bool :=
  if u.esSuperadmin then true
  else if u.permisosUsuario.any (fun p => p == nombre) then true
  else rp.any (fun x => x.1 == u.rol && x.2 == nombre)

/-- Embeds `Usuario.tiene_permisos(*permisos, todos=True)`: superadmin
shortcut, then `if not permisos: return False`, then all/any of
`tiene_permiso` according to `todos`. -/
def tienePermisos (rp : List (String × String)) (u : Usuario)
    (permisos : List String) (todos : Bool) : Bool :=
  if u.esSuperadmin then true
  else if permisos.isEmpty then false
  else if todos then permisos.all (tienePermiso rp u)
  else permisos.any (tienePermiso rp u)

/-- Outcome of the `role_required` guard around a handler:
`authRequired` is flask-login's unauthorized signal, `forbidden` the
`({'error': 'No autorizado'}, 403)` JSON reply for XHR callers,
`redirectError` the flash + redirect for page callers, and `proceed`
means the wrapped view function runs. -/
inductive GuardResult where
  | authRequired
  | forbidden
  | redirectError
  | proceed
deriving Repr, DecidableEq

/-- Embeds the decorator `role_required(*roles)` applied to a handler, as a
function of the requested roles, the (possibly absent) authenticated caller
and whether the request is XHR. The outer `@login_required` rejects
unauthenticated callers; then `not roles or 'any' in roles` passes anyone;
then `current_user.tiene_rol(*roles)` (the `hasattr` branch taken by every
`Usuario`) decides; a denial is 403 for XHR and a flash+redirect
otherwise. -/
def roleRequired (roles : List String) (caller : Option Usuario)
    (isXhr : Bool) : GuardResult :=
  match caller with
  | none => .authRequired
  | some u =>
    if roles.isEmpty || roles.contains "any" then .proceed
    else if u.hasRole roles then .proceed
    else if isXhr then .forbidden
    else .redirectError

/-- A value submitted for one counter field, as Python sees it:
`none` (Python `None`), an integer, or a value of a non-integer type. -/
inductive CVal where
  | none
  | int (i : Int)
  | nonInt
deriving Repr, DecidableEq

/-- `Conteo.MAX_CONTADOR`. -/
def MAX_CONTADOR : Int := 9999999

/-- `Conteo.MAX_DIFERENCIA_DIARIA`. -/
def MAX_DIFERENCIA_DIARIA : Int := 10000

/-- Embeds the `@validates(...)` hook `Conteo.validar_contadores`:
`None` is stored as 0; a non-integer or negative value raises
`ValueError`; a value above `MAX_CONTADOR` raises `ValueError`; any other
integer is stored unchanged. -/
def validarContadores : CVal → Except String Int
  | .none => .ok 0
  | .nonInt => .error "El valor del contador debe ser un número entero no negativo"
  | .int i =>
    if i < 0 then .error "El valor del contador debe ser un número entero no negativo"
    else if MAX_CONTADOR < i then .error "El valor del contador no puede exceder MAX_CONTADOR"
    else .ok i

/-- Embeds the `@validates('estado_equipo')` hook
`Conteo.validar_estado_equipo`. -/
def validarEstadoEquipo (estado : String) : Except String String :=
  if estado == "operativo" || estado == "con_fallas" || estado == "fuera_de_servicio" then
    .ok estado
  else .error "Estado de equipo no válido"

/-- A `Conteo` (MeterReading) object. The `diferencia*` fields are the
mapped columns `diferencia_impresiones` / `diferencia_escaneos` /
`diferencia_copias`, Python-side 0 before `calcular_diferencias` runs
(column default 0). `strayDiferenciaImpresions` and
`strayDiferenciaCopiass` model the plain instance attributes
`diferencia_impresions` and `diferencia_copiass` that
`calcular_diferencias`'s `setattr(self, f'diferencia_{tipo}s', ...)`
creates for `tipo='impresion'` and `tipo='copias'`: those names are not
mapped columns, so they are never persisted. -/
structure Conteo where
  contadorImpresionActual : Int
  contadorEscaneoActual : Int
  contadorCopiasActual : Int
  contadorImpresionAnterior : Int := 0
  contadorEscaneoAnterior : Int := 0
  contadorCopiasAnterior : Int := 0
  diferenciaImpresiones : Int := 0
  diferenciaEscaneos : Int := 0
  diferenciaCopias : Int := 0
  strayDiferenciaImpresions : Option Int := none
  strayDiferenciaCopiass : Option Int := none
  estadoEquipo : String := "operativo"
  requiereMantenimiento : Bool := false
  problemasDetectados : Option String := none
  observaciones : Option String := none
deriving Repr, DecidableEq

/-- One loop iteration's delta computation in `Conteo.calcular_diferencias`:
`if actual < anterior and actual > 0: diferencia = actual
 else: diferencia = max(0, actual - anterior)`. -/
def deltaFor (actual anterior : Int) : Int :=
  if actual < anterior ∧ 0 < actual then actual
  else max 0 (actual - anterior)

/-- The condition of the anomaly branch in `Conteo.calcular_diferencias`:
`if diferencia > self.MAX_DIFERENCIA_DIARIA and anterior > 0` (its body is
`pass`). -/
def anomalia (diferencia anterior : Int) : Bool :=
  decide (MAX_DIFERENCIA_DIARIA < diferencia ∧ 0 < anterior)

/-- The dict returned by `Conteo.calcular_diferencias`, keyed
`impresion` / `escaneo` / `copias`. -/
structure Diferencias where
  impresion : Int
  escaneo : Int
  copias : Int
deriving Repr, DecidableEq

/-- Embeds `Conteo.calcular_diferencias`. For each of the three counter
types it computes `deltaFor actual anterior` and then executes
`setattr(self, f'diferencia_{tipo}s', diferencia)`. Only
`'escaneo' + 's' = 'escaneos'` names the mapped column
`diferencia_escaneos`; `'impresion' + 's'` and `'copias' + 's'` produce the
unmapped names `diferencia_impresions` and `diferencia_copiass`, so the
mapped columns `diferencia_impresiones` and `diferencia_copias` are left
untouched. The anomaly branch is a `pass` and changes nothing. Returns the
updated object and the returned dict. -/
def calcularDiferencias (c : Conteo) : Conteo × Diferencias :=
  let dImpresion := deltaFor c.contadorImpresionActual c.contadorImpresionAnterior
  let dEscaneo := deltaFor c.contadorEscaneoActual c.contadorEscaneoAnterior
  let dCopias := deltaFor c.contadorCopiasActual c.contadorCopiasAnterior
  let c' := { c with
    strayDiferenciaImpresions := some dImpresion,
    diferenciaEscaneos := dEscaneo,
    strayDiferenciaCopiass := some dCopias }
  (c', { impresion := dImpresion, escaneo := dEscaneo, copias := dCopias })

/-- Embeds the construction `Conteo(...)` as performed by the
`nuevo_conteo` route: the six counter keyword arguments fire
`validar_contadores` in keyword order, then `estado_equipo` fires
`validar_estado_equipo`; the first `ValueError` aborts construction. The
route passes `problemas_detectados if requiere_mantenimiento else None`;
that conditional is kept in the route embedding below. -/
def mkConteo (ia ea ca ip ep cp : CVal) (estado : String)
    (reqMant : Bool) (problemas obs : Option String) : Except String Conteo :=
  match validarContadores ia with
  | .error e => .error e
  | .ok ia' =>
    match validarContadores ea with
    | .error e => .error e
    | .ok ea' =>
      match validarContadores ca with
      | .error e => .error e
      | .ok ca' =>
        match validarContadores ip with
        | .error e => .error e
        | .ok ip' =>
          match validarContadores ep with
          | .error e => .error e
          | .ok ep' =>
            match validarContadores cp with
            | .error e => .error e
            | .ok cp' =>
              match validarEstadoEquipo estado with
              | .error e => .error e
              | .ok estado' =>
                .ok { contadorImpresionActual := ia'
                      contadorEscaneoActual := ea'
                      contadorCopiasActual := ca'
                      contadorImpresionAnterior := ip'
                      contadorEscaneoAnterior := ep'
                      contadorCopiasAnterior := cp'
                      estadoEquipo := estado'
                      requiereMantenimiento := reqMant
                      problemasDetectados := problemas
                      observaciones := obs }

/-- The `Equipo` columns the `nuevo_conteo` route touches. -/
structure Equipo where
  ultimoConteoImpresiones : Int := 0
  ultimoConteoEscaneos : Int := 0
  ultimoConteoCopias : Int := 0
  estado : String := "activo"
deriving Repr, DecidableEq

/-- The database state the route reads and writes: the targeted equipment
row and its `Conteo` rows, most recent first (the route's
`order_by(desc(Conteo.fecha_conteo)).first()` is the head). -/
structure DBState where
  equipo : Equipo
  conteos : List Conteo
deriving Repr, DecidableEq

/-- The current counters of the most recent `Conteo` row, or (0,0,0) when
there is none — `ultimo_conteo.contador_*_actual if ultimo_conteo else 0`
in the route. -/
def latestActuals (conteos : List Conteo) : Int × Int × Int :=
  match conteos with
  | [] => (0, 0, 0)
  | c :: _ => (c.contadorImpresionActual, c.contadorEscaneoActual, c.contadorCopiasActual)

/-- A validated `ConteoImpresionForm` submission
(`app/conteo_impresiones/forms.py`), holding the fields the `nuevo_conteo`
route consumes. The counter fields are named `contador_*_actual` and
`contador_*_anterior` — the form defines no field named
`contador_impresiones`, `contador_escaneos` or `contador_copias`. -/
structure ConteoImpresionForm where
  equipo_id : Int := 0
  contador_impresiones_actual : Int := 0
  contador_escaneos_actual : Int := 0
  contador_copias_actual : Int := 0
  contador_impresiones_anterior : Int := 0
  contador_escaneos_anterior : Int := 0
  contador_copias_anterior : Int := 0
  estado_equipo : String := "operativo"
  requiere_mantenimiento : Bool := false
  problemas_detectados : Option String := none
  observaciones : Option String := none
deriving Repr, DecidableEq

/-- The integer counter attributes Python's attribute lookup finds on a
`ConteoImpresionForm` instance, keyed by their defined names. -/
def counterAttrs (f : ConteoImpresionForm) : List (String × Int) :=
  [("contador_impresiones_actual", f.contador_impresiones_actual),
   ("contador_escaneos_actual", f.contador_escaneos_actual),
   ("contador_copias_actual", f.contador_copias_actual),
   ("contador_impresiones_anterior", f.contador_impresiones_anterior),
   ("contador_escaneos_anterior", f.contador_escaneos_anterior),
   ("contador_copias_anterior", f.contador_copias_anterior)]

/-- Embeds `form.<name>.data` for a counter attribute: a defined field
yields its value, an undefined name raises `AttributeError`. -/
def getFormCounter (f : ConteoImpresionForm) (name : String) : Except String Int :=
  match (counterAttrs f).lookup name with
  | some v => .ok v
  | none => .error ("AttributeError: " ++ name)

/-- Embeds the body of the `nuevo_conteo` route
(`app/conteo_impresiones/routes.py`) after `form.validate_on_submit()`,
inside its `try`: it first reads `form.contador_impresiones.data`,
`form.contador_escaneos.data` and `form.contador_copias.data` — attribute
names `ConteoImpresionForm` does not define, so the first read raises
`AttributeError` and the rest of the body never executes in the source.
The continuation (kept here as the source text keeps it) would read the
latest `Conteo` for the equipment, construct the new `Conteo` with
`contador_*_anterior` taken from that row (0 when absent), run
`calcular_diferencias`, set the equipment's `ultimo_conteo_*` columns to
the submitted values, switch the equipment to maintenance when requested,
and commit the new row together with the equipment update; any
`ValueError` from construction would propagate as `.error`. -/
def nuevoConteo (st : DBState) (form : ConteoImpresionForm) : Except String DBState :=
  match getFormCounter form "contador_impresiones" with
  | .error e => .error e
  | .ok ci =>
    match getFormCounter form "contador_escaneos" with
    | .error e => .error e
    | .ok ce =>
      match getFormCounter form "contador_copias" with
      | .error e => .error e
      | .ok cc =>
        let a := latestActuals st.conteos
        match mkConteo (.int ci) (.int ce) (.int cc) (.int a.1) (.int a.2.1) (.int a.2.2)
            form.estado_equipo form.requiere_mantenimiento
            (if form.requiere_mantenimiento then form.problemas_detectados else none)
            form.observaciones with
        | .error e => .error e
        | .ok c0 =>
          let c1 := (calcularDiferencias c0).1
          let eq1 := { st.equipo with
            ultimoConteoImpresiones := ci,
            ultimoConteoEscaneos := ce,
            ultimoConteoCopias := cc }
          let eq2 := if form.requiere_mantenimiento then
            { eq1 with estado := "en_mantenimiento" } else eq1
          .ok { equipo := eq2, conteos := c1 :: st.conteos }

/-- The route's `try/except` around the submission: on any exception —
in the source, always the `AttributeError` from the first counter read —
the session is rolled back and the database state is unchanged. -/
def runNuevoConteo (st : DBState) (form : ConteoImpresionForm) : DBState :=
  match nuevoConteo st form with
  | .error _ => st
  | .ok st' => st'

/-- True on the `.error` constructor of an `Except`. -/
def isError {ε α : Type} : Except ε α → Bool
  | .error _ => true
  | .ok _ => false

/-- Scenario input for C1: previous impression counter 99000, submitted
current counter 50 (device replaced or reset). -/
def c1Failing : Conteo :=
  { contadorImpresionActual := 50
    contadorEscaneoActual := 0
    contadorCopiasActual := 0
    contadorImpresionAnterior := 99000 }

/-- Concrete reading for C9: all current counters wiped to zero with
strictly positive previous counters. -/
def c9Input : Conteo :=
  { contadorImpresionActual := 0
    contadorEscaneoActual := 0
    contadorCopiasActual := 0
    contadorImpresionAnterior := 5
    contadorEscaneoAnterior := 5
    contadorCopiasAnterior := 5 }

/-- Concrete reading for C4: impression delta 19999 over previous counter
1, exceeding `MAX_DIFERENCIA_DIARIA` with a positive previous value. -/
def c4Anomalous : Conteo :=
  { contadorImpresionActual := 20000
    contadorEscaneoActual := 0
    contadorCopiasActual := 0
    contadorImpresionAnterior := 1 }

/-- The pre-existing reading in the C4 counterexample state. -/
def c4PrevRow : Conteo :=
  { contadorImpresionActual := 1
    contadorEscaneoActual := 0
    contadorCopiasActual := 0 }

/-- Database state for the C4 counterexample: one prior reading with
impression counter 1. -/
def c4Pre : DBState :=
  { equipo := {}, conteos := [c4PrevRow] }

/-- The object `calcular_diferencias` leaves behind when called on
`c4Anomalous`: only the three `setattr` targets changed — no flag of any
kind is recorded. -/
def c4AnomalousAfter : Conteo :=
  { contadorImpresionActual := 20000
    contadorEscaneoActual := 0
    contadorCopiasActual := 0
    contadorImpresionAnterior := 1
    strayDiferenciaImpresions := some 19999
    strayDiferenciaCopiass := some 0 }

/-- A validated form carrying the anomalous counters of `c4Anomalous`. -/
def c4Form : ConteoImpresionForm :=
  { equipo_id := 1
    contador_impresiones_actual := 20000
    contador_impresiones_anterior := 1 }

/-- A validated form submitting a counter of 10,000,000 — above
`MAX_CONTADOR`; used by the C5 witness. -/
def c5Form : ConteoImpresionForm :=
  { equipo_id := 1
    contador_escaneos_actual := 10000000 }

lemma userLevel_nonneg (r : String) : 0 ≤ userLevel r := by
  unfold userLevel rolesLevel?
  split_ifs <;> norm_num

lemma reqLevel_le_userLevel (r : String) : reqLevel r ≤ userLevel r := by
  unfold reqLevel userLevel rolesLevel?
  split_ifs <;> norm_num

/-- C6: `tiene_permiso` grants everything to a superadmin; grants any
directly assigned permission regardless of the `RolPermiso` table; and for
a non-superadmin without a direct grant it is true exactly when a
`RolPermiso` row links the user's role to the permission name. -/
theorem c6_tiene_permiso_order (rp : List (String × String)) (u : Usuario) (p : String) :
    (u.rol = "superadmin" → tienePermiso rp u p = true) ∧
    (p ∈ u.permisosUsuario → tienePermiso rp u p = true) ∧
    (u.rol ≠ "superadmin" → p ∉ u.permisosUsuario →
      (tienePermiso rp u p = true ↔ (u.rol, p) ∈ rp)) := by
  refine ⟨?_, ?_, ?_⟩
  · intro h
    simp [tienePermiso, Usuario.esSuperadmin, h]
  · intro h
    by_cases hsa : u.esSuperadmin
    · simp [tienePermiso, hsa]
    · simp only [tienePermiso, hsa, if_false]
      have : u.permisosUsuario.any (fun q => q == p) = true := by
        simp only [List.any_eq_true, beq_iff_eq]
        exact ⟨p, h, rfl⟩
      simp [this]
  · intro h1 h2
    have hsa : u.esSuperadmin = false := by
      simp [Usuario.esSuperadmin, h1]
    have hdir : u.permisosUsuario.any (fun q => q == p) = false := by
      simp only [List.any_eq_false, beq_iff_eq]
      intro q hq hqp
      exact h2 (hqp ▸ hq)
    simp only [tienePermiso, hsa, hdir, Bool.false_eq_true, if_false]
    simp only [List.any_eq_true, Bool.and_eq_true, beq_iff_eq]
    constructor
    · rintro ⟨⟨a, b⟩, hmem, rfl, rfl⟩
      exact hmem
    · intro hmem
      exact ⟨(u.rol, p), hmem, rfl, rfl⟩

/-- Witness for C6 at a concrete input: a technician with no direct grant
holds `ver_conteos` exactly because the role-permission row exists. -/
theorem c6_tiene_permiso_order_witness :
    tienePermiso [("tecnico", "ver_conteos")] ⟨"tecnico", []⟩ "ver_conteos" = true ↔
      ("tecnico", "ver_conteos") ∈ [("tecnico", "ver_conteos")] :=
  (c6_tiene_permiso_order [("tecnico", "ver_conteos")] ⟨"tecnico", []⟩ "ver_conteos").2.2
    (by decide) (by simp)

/-- C2 (amended): on a non-empty list `tiene_permisos` has AND semantics
with `todos := true` and OR semantics with `todos := false`; on an empty
list it returns whether the user is a superadmin — false for everyone
else, for both values of `todos`, contrary to the claimed vacuous truth
under `require_all`. -/
theorem c2_tiene_permisos_amended (rp : List (String × String)) (u : Usuario)
    (permisos : List String) :
    (permisos ≠ [] →
      (tienePermisos rp u permisos true = true ↔
        ∀ p ∈ permisos, tienePermiso rp u p = true) ∧
      (tienePermisos rp u permisos false = true ↔
        ∃ p ∈ permisos, tienePermiso rp u p = true)) ∧
    (∀ todos, tienePermisos rp u [] todos = u.esSuperadmin) := by
  constructor
  · intro hne
    by_cases hsa : u.esSuperadmin
    · constructor
      · simp [tienePermisos, tienePermiso, hsa]
      · simp only [tienePermisos, hsa, if_true, true_iff]
        obtain ⟨p, hp⟩ := List.exists_mem_of_ne_nil permisos hne
        exact ⟨p, hp, by simp [tienePermiso, hsa]⟩
    · have hne' : permisos.isEmpty = false := by
        simpa [List.isEmpty_iff] using hne
      constructor
      · simp [tienePermisos, hsa, hne', List.all_eq_true]
      · simp [tienePermisos, hsa, hne', List.any_eq_true]
  · intro todos
    by_cases hsa : u.esSuperadmin <;> simp [tienePermisos, hsa]

/-- Witness for C2's amended theorem: for a superadmin and the two-element
list, `todos := true` agrees with the conjunction of the two checks. -/
theorem c2_tiene_permisos_amended_witness :
    tienePermisos [] ⟨"superadmin", []⟩ ["a", "b"] true = true ↔
      ∀ p ∈ ["a", "b"], tienePermiso [] ⟨"superadmin", []⟩ p = true :=
  ((c2_tiene_permisos_amended [] ⟨"superadmin", []⟩ ["a", "b"]).1 (by simp)).1

/-- Counterexample to C2 as stated: for a non-superadmin user an empty
permission list with `todos := true` yields `false`, not the claimed
vacuous `true`. -/
theorem c2_counterexample :
    tienePermisos [] ⟨"tecnico", []⟩ [] true = false ∧
    (Usuario.mk "tecnico" []).esSuperadmin = false := by
  constructor <;> rfl

/-- C8: `has_role` against a role name that is not a key of `ROLES`
accepts every user — the unknown requested role defaults to level -1 and
every user level defaults to at least 0. -/
theorem c8_unknown_role_accepts (u : Usuario) (roles : List String) (r : String)
    (hmem : r ∈ roles) (hunk : rolesLevel? r = none) :
    u.hasRole roles = true := by
  simp only [Usuario.hasRole, List.any_eq_true]
  refine ⟨r, hmem, ?_⟩
  have h1 : reqLevel r = -1 := by simp [reqLevel, hunk]
  have h2 : (0 : Int) ≤ userLevel u.rol := userLevel_nonneg u.rol
  simp only [h1, decide_eq_true_eq]
  omega

/-- Witness for C8: the misspelled role name `tecnco` is not registered,
so even the lowest-ranked `usuario` role passes the check. -/
theorem c8_unknown_role_accepts_witness :
    (Usuario.mk "usuario" []).hasRole ["tecnco"] = true :=
  c8_unknown_role_accepts ⟨"usuario", []⟩ ["tecnco"] "tecnco" (by simp) (by rfl)

/-- Counterexample to C7 as stated: with accepted list `["tecnico"]`, an
authenticated admin — whose role identifier is not in the list — proceeds
to the handler instead of being rejected, because the guard delegates to
the rank-based `tiene_rol`. -/
theorem c7_counterexample :
    roleRequired ["tecnico"] (some ⟨"admin", []⟩) false = GuardResult.proceed ∧
    ("admin" ∈ ["tecnico"]) = False := by
  constructor
  · rfl
  · simp

/-- C7 (amended): for a non-empty accepted list without the sentinel
`any`, the guard rejects unauthenticated callers with the
authentication-required signal; an authenticated caller proceeds exactly
when `has_role` accepts it — in particular whenever its own role is
listed, but also whenever its rank meets some listed role's rank — and is
otherwise denied with 403 for XHR callers and a flash-redirect for page
callers. -/
theorem c7_role_guard_amended (roles : List String) (isXhr : Bool)
    (hne : roles ≠ []) (hany : "any" ∉ roles) :
    roleRequired roles none isXhr = GuardResult.authRequired ∧
    (∀ u : Usuario, u.rol ∈ roles →
      roleRequired roles (some u) isXhr = GuardResult.proceed) ∧
    (∀ u : Usuario, u.hasRole roles = true →
      roleRequired roles (some u) isXhr = GuardResult.proceed) ∧
    (∀ u : Usuario, u.hasRole roles = false →
      roleRequired roles (some u) isXhr =
        if isXhr then GuardResult.forbidden else GuardResult.redirectError) := by
  have hguard : (roles.isEmpty || roles.contains "any") = false := by
    simp [List.isEmpty_iff, hne, hany]
  have hstep : ∀ u : Usuario, roleRequired roles (some u) isXhr =
      if u.hasRole roles then GuardResult.proceed
      else if isXhr then GuardResult.forbidden else GuardResult.redirectError := by
    intro u
    simp only [roleRequired, hguard, Bool.false_eq_true, if_false]
  refine ⟨rfl, ?_, ?_, ?_⟩
  · intro u hu
    have hrole : u.hasRole roles = true := by
      simp only [Usuario.hasRole, List.any_eq_true]
      exact ⟨u.rol, hu, by simpa using reqLevel_le_userLevel u.rol⟩
    rw [hstep, hrole]
    rfl
  · intro u hrole
    rw [hstep, hrole]
    rfl
  · intro u hrole
    rw [hstep, hrole]
    rfl

/-- Witness for C7's amended theorem: for the list `["admin"]` an
unauthenticated caller receives the authentication-required signal. -/
theorem c7_role_guard_amended_witness :
    roleRequired ["admin"] none true = GuardResult.authRequired :=
  (c7_role_guard_amended ["admin"] true (by simp) (by simp)).1

lemma deltaFor_zero_actual (a : Int) (h : 0 < a) : deltaFor 0 a = 0 := by
  unfold deltaFor
  rw [if_neg (by omega), max_eq_left (by omega)]

lemma validarContadores_int_error (i : Int) (h : i < 0 ∨ MAX_CONTADOR < i) :
    isError (validarContadores (.int i)) = true := by
  simp only [validarContadores]
  split_ifs with h1 h2
  · rfl
  · rfl
  · rcases h with h | h
    · exact absurd h h1
    · exact absurd h h2

lemma mkConteo_error_of_invalid (ia ea ca ip ep cp : CVal) (est : String)
    (rm : Bool) (pr obs : Option String)
    (h : isError (validarContadores ia) = true ∨ isError (validarContadores ea) = true ∨
         isError (validarContadores ca) = true) :
    isError (mkConteo ia ea ca ip ep cp est rm pr obs) = true := by
  unfold mkConteo
  cases hia : validarContadores ia with
  | error e => simp only [hia]; rfl
  | ok ia' =>
    simp only [hia]
    rcases h with h | h | h
    · rw [hia] at h
      simp [isError] at h
    · cases hea : validarContadores ea with
      | error e => simp only [hea]; rfl
      | ok ea' =>
        rw [hea] at h
        simp [isError] at h
    · cases hea : validarContadores ea with
      | error e => simp only [hea]; rfl
      | ok ea' =>
        simp only [hea]
        cases hca : validarContadores ca with
        | error e => simp only [hca]; rfl
        | ok ca' =>
          rw [hca] at h
          simp [isError] at h

/-- C1 (code bug evidence): at previous impression counter 99000 and
submitted counter 50, `calcular_diferencias` computes the reset delta 50
and returns it in its dict, but `setattr` targets the misspelled
attribute name `diferencia_impresions`, so the mapped column
`diferencia_impresiones` — the stored delta — keeps its default 0, and
likewise `diferencia_copias` is never written (only `diferencia_escaneos`
is spelled correctly). The claim's stored delta of 50 is therefore never
persisted for impressions. -/
theorem c1_reset_delta_not_persisted :
    ((calcularDiferencias c1Failing).2).impresion = 50 ∧
    ((calcularDiferencias c1Failing).1).strayDiferenciaImpresions = some 50 ∧
    ((calcularDiferencias c1Failing).1).diferenciaImpresiones = 0 ∧
    ((calcularDiferencias c1Failing).1).diferenciaCopias = 0 := by
  refine ⟨?_, ?_, ?_, ?_⟩ <;> rfl

/-- C9: in `calcular_diferencias`, a current counter equal to 0 with a
strictly positive previous counter does not take the reset branch (which
requires `current > 0`), and the computed delta — both the dict entry and
the value `setattr` writes — is exactly 0 for each counter type. -/
theorem c9_wipe_to_zero_gives_zero_delta (c : Conteo) :
    (c.contadorImpresionActual = 0 → 0 < c.contadorImpresionAnterior →
      ((calcularDiferencias c).2).impresion = 0 ∧
      ((calcularDiferencias c).1).strayDiferenciaImpresions = some 0) ∧
    (c.contadorEscaneoActual = 0 → 0 < c.contadorEscaneoAnterior →
      ((calcularDiferencias c).2).escaneo = 0 ∧
      ((calcularDiferencias c).1).diferenciaEscaneos = 0) ∧
    (c.contadorCopiasActual = 0 → 0 < c.contadorCopiasAnterior →
      ((calcularDiferencias c).2).copias = 0 ∧
      ((calcularDiferencias c).1).strayDiferenciaCopiass = some 0) := by
  refine ⟨?_, ?_, ?_⟩ <;> intro h1 h2 <;>
    exact ⟨by simp [calcularDiferencias, h1, deltaFor_zero_actual _ h2],
           by simp [calcularDiferencias, h1, deltaFor_zero_actual _ h2]⟩

/-- Witness for C9 at the concrete wiped reading `c9Input`. -/
theorem c9_wipe_to_zero_gives_zero_delta_witness :
    ((calcularDiferencias c9Input).2).impresion = 0 ∧
    ((calcularDiferencias c9Input).1).strayDiferenciaImpresions = some 0 :=
  (c9_wipe_to_zero_gives_zero_delta c9Input).1 rfl (by norm_num [c9Input])

/-- C10: `validar_contadores` maps `None` to 0 instead of raising, so for
each of the six counter fields, constructing a `Conteo` with `None` in
that position behaves exactly like constructing it with 0 there — the
missing counter is stored as 0 and never triggers the
`InvalidCounterValue` rejection. -/
theorem c10_none_counter_stored_as_zero :
    validarContadores CVal.none = Except.ok 0 ∧
    (∀ ea ca ip ep cp est rm pr obs,
      mkConteo CVal.none ea ca ip ep cp est rm pr obs =
        mkConteo (CVal.int 0) ea ca ip ep cp est rm pr obs) ∧
    (∀ ia ca ip ep cp est rm pr obs,
      mkConteo ia CVal.none ca ip ep cp est rm pr obs =
        mkConteo ia (CVal.int 0) ca ip ep cp est rm pr obs) ∧
    (∀ ia ea ip ep cp est rm pr obs,
      mkConteo ia ea CVal.none ip ep cp est rm pr obs =
        mkConteo ia ea (CVal.int 0) ip ep cp est rm pr obs) ∧
    (∀ ia ea ca ep cp est rm pr obs,
      mkConteo ia ea ca CVal.none ep cp est rm pr obs =
        mkConteo ia ea ca (CVal.int 0) ep cp est rm pr obs) ∧
    (∀ ia ea ca ip cp est rm pr obs,
      mkConteo ia ea ca ip CVal.none cp est rm pr obs =
        mkConteo ia ea ca ip (CVal.int 0) cp est rm pr obs) ∧
    (∀ ia ea ca ip ep est rm pr obs,
      mkConteo ia ea ca ip ep CVal.none est rm pr obs =
        mkConteo ia ea ca ip ep (CVal.int 0) est rm pr obs) := by
  have key : validarContadores CVal.none = validarContadores (CVal.int 0) := by
    simp only [validarContadores]
    norm_num [MAX_CONTADOR]
  refine ⟨rfl, ?_, ?_, ?_, ?_, ?_, ?_⟩ <;> intros <;> unfold mkConteo <;> rw [key]

lemma getFormCounter_contador_impresiones (f : ConteoImpresionForm) :
    getFormCounter f "contador_impresiones" =
      .error "AttributeError: contador_impresiones" := by
  rfl

lemma nuevoConteo_attr_error (st : DBState) (f : ConteoImpresionForm) :
    nuevoConteo st f = .error "AttributeError: contador_impresiones" := by
  rfl

lemma runNuevoConteo_noop (st : DBState) (f : ConteoImpresionForm) :
    runNuevoConteo st f = st := by
  rfl

/-- C5: a submitted counter that is negative, non-integer or strictly
above `MAX_CONTADOR` is rejected by `validar_contadores`; construction of
the `Conteo` therefore fails — so delta computation never runs — and the
route rolls back, leaving the database unchanged: no `Conteo` row is
written and no equipment counter update is persisted. -/
theorem c5_out_of_range_rejected :
    (∀ i : Int, i < 0 ∨ MAX_CONTADOR < i → isError (validarContadores (.int i)) = true) ∧
    isError (validarContadores CVal.nonInt) = true ∧
    (∀ ia ea ca ip ep cp est rm pr obs,
      (isError (validarContadores ia) = true ∨ isError (validarContadores ea) = true ∨
       isError (validarContadores ca) = true) →
      isError (mkConteo ia ea ca ip ep cp est rm pr obs) = true) ∧
    (∀ (st : DBState) (f : ConteoImpresionForm),
      f.contador_impresiones_actual < 0 ∨ MAX_CONTADOR < f.contador_impresiones_actual ∨
      f.contador_escaneos_actual < 0 ∨ MAX_CONTADOR < f.contador_escaneos_actual ∨
      f.contador_copias_actual < 0 ∨ MAX_CONTADOR < f.contador_copias_actual →
      runNuevoConteo st f = st) := by
  refine ⟨validarContadores_int_error, rfl, mkConteo_error_of_invalid, ?_⟩
  intro st f _
  exact runNuevoConteo_noop st f

/-- Witness for C5: submitting 10,000,000 (above the 9,999,999 maximum)
to an empty database leaves it unchanged. -/
theorem c5_out_of_range_rejected_witness :
    runNuevoConteo ⟨{}, []⟩ c5Form = ⟨{}, []⟩ :=
  c5_out_of_range_rejected.2.2.2 ⟨{}, []⟩ c5Form
    (Or.inr (Or.inr (Or.inr (Or.inl (by norm_num [c5Form, MAX_CONTADOR])))))

/-- C4 (amended): when a computed delta exceeds `MAX_DIFERENCIA_DIARIA`
with a strictly positive previous counter, the anomaly branch of
`calcular_diferencias` is a bare `pass`: no flag is recorded anywhere —
the reading's maintenance flag, detected problems, notes, equipment state
and the untouched mapped delta columns are exactly what they were before
the call — and the computation does not reject the reading. No reading,
anomalous or not, is ever persisted through the `nuevo_conteo` route: it
raises `AttributeError` reading `form.contador_impresiones` (an attribute
`ConteoImpresionForm` does not define) before constructing the `Conteo`,
and the `except` branch rolls the session back. -/
theorem c4_anomaly_unrecorded (c : Conteo)
    (h : anomalia ((calcularDiferencias c).2).impresion c.contadorImpresionAnterior = true ∨
         anomalia ((calcularDiferencias c).2).escaneo c.contadorEscaneoAnterior = true ∨
         anomalia ((calcularDiferencias c).2).copias c.contadorCopiasAnterior = true) :
    ((calcularDiferencias c).1).requiereMantenimiento = c.requiereMantenimiento ∧
    ((calcularDiferencias c).1).problemasDetectados = c.problemasDetectados ∧
    ((calcularDiferencias c).1).observaciones = c.observaciones ∧
    ((calcularDiferencias c).1).estadoEquipo = c.estadoEquipo ∧
    ((calcularDiferencias c).1).diferenciaImpresiones = c.diferenciaImpresiones ∧
    ((calcularDiferencias c).1).diferenciaCopias = c.diferenciaCopias ∧
    (∀ (st : DBState) (form : ConteoImpresionForm), runNuevoConteo st form = st) :=
  ⟨rfl, rfl, rfl, rfl, rfl, rfl, fun st form => runNuevoConteo_noop st form⟩

/-- Witness for C4's amended theorem at the concrete anomalous reading
`c4Anomalous` (delta 19999 over previous counter 1). -/
theorem c4_anomaly_unrecorded_witness :
    ((calcularDiferencias c4Anomalous).1).requiereMantenimiento =
      c4Anomalous.requiereMantenimiento :=
  (c4_anomaly_unrecorded c4Anomalous (Or.inl (by decide))).1

/-- Counterexample to C4 as stated: the reading of counter 20000 over
previous counter 1 (delta 19999 > 10000, previous > 0) satisfies the
anomaly condition, yet `calcular_diferencias` leaves the fully explicit
object `c4AnomalousAfter` — maintenance flag false, no detected problems,
no notes, equipment state unchanged: no flag of any kind is recorded —
and the reading is not persisted either: submitting the same counters
through the route leaves the database `c4Pre` unchanged, because the
route raises `AttributeError` before constructing the `Conteo`. -/
theorem c4_counterexample :
    anomalia (deltaFor 20000 1) 1 = true ∧
    calcularDiferencias c4Anomalous =
      (c4AnomalousAfter, { impresion := 19999, escaneo := 0, copias := 0 }) ∧
    runNuevoConteo c4Pre c4Form = c4Pre := by
  refine ⟨by decide, rfl, rfl⟩

/-- C3 (code bug evidence): the `nuevo_conteo` route can never complete a
meter submission. Inside its `try` it reads `form.contador_impresiones`
(then `form.contador_escaneos`, `form.contador_copias`), attributes
`ConteoImpresionForm` does not define — its fields are
`contador_impresiones_actual` and friends — so every validated POST
raises `AttributeError`, the `except` branch rolls the session back, and
for every database state and every submitted form the route leaves the
database unchanged: no `Conteo` row is written, no equipment counter is
updated, and no successful submission for the claim to describe exists. -/
theorem c3_route_never_persists (st : DBState) (form : ConteoImpresionForm) :
    nuevoConteo st form = Except.error "AttributeError: contador_impresiones" ∧
    runNuevoConteo st form = st :=
  ⟨nuevoConteo_attr_error st form, runNuevoConteo_noop st form⟩

end Ecoloimp
